import Mathlib

/-!
Shallow embedding of the per-CPU resource manager and task layer
(src/cpu/percpu.rs and src/task/tasks.rs) of an SEV-SNP style secure
virtual machine service module.

Machine addresses are modelled as Nat.  Collaborator calls (page-table
map_4k and unmap_4k, the save-area allocator, the zeroed-page allocator)
are out of scope for this repository, so their success or failure is
supplied by an environment record; the per-CPU state carries an explicit
log of pages freed and of map_4k calls issued so that effect claims can
be stated.  Fallible Rust functions returning Result are embedded as
functions returning Except Unit paired with the successor state; a Rust
panic (expect or unwrap) is embedded as a distinguished outcome.
-/

namespace Svsm

/-- Save-area handle as in the source: virtual address, physical address,
and whether the page is owned by the guest (src/cpu/percpu.rs, VmsaRef). -/
structure VmsaRef where
  vaddr : Nat
  paddr : Nat
  guest_owned : Bool
deriving Repr, DecidableEq

/-- Vocabulary bridge stated by the specification: an entry is owned by
this layer, which then frees the page on removal, exactly when it is not
guest owned. -/
def VmsaRef.owned (r : VmsaRef) : Bool := !r.guest_owned

/-- Fixed virtual window for the guest save-area mapping.  The constant
lives in the memory-layout module outside this repository excerpt; its
numeric value is irrelevant to every claim. -/
def SVSM_PERCPU_VMSA_BASE : Nat := 0xffffff8000002000

/-- Fixed virtual window for the calling-area mapping. -/
def SVSM_PERCPU_CAA_BASE : Nat := 0xffffff8000003000

def PAGE_SIZE : Nat := 4096

/-- Align an address down to its page start (utils::page_align). -/
def page_align (a : Nat) : Nat := a / PAGE_SIZE * PAGE_SIZE

/-- Sub-page byte offset of an address (utils::page_offset). -/
def page_offset (a : Nat) : Nat := a % PAGE_SIZE

/-- Environment for the collaborator calls a PerCpu operation makes:
whether unmap_4k succeeds at a given virtual address, whether map_4k
succeeds for a given pair, the result of allocate_new_vmsa (none means
allocation failure, some v the allocated virtual address), and the
virt_to_phys translation. -/
structure PgEnv where
  unmap4kOk : Nat → Bool
  map4kOk : Nat → Nat → Bool
  allocVmsa : Option Nat
  virtToPhys : Nat → Nat

/-- The PerCpu fields involved in the save-area and calling-area claims,
plus two effect logs: physical pages freed through free_vmsa, and the
map_4k calls issued to the page table. -/
structure PerCpu where
  svsm_vmsa : Option VmsaRef
  guest_vmsa : Option VmsaRef
  caa_addr : Option Nat
  freed : List Nat
  mapCalls : List (Nat × Nat)
deriving Repr, DecidableEq

/-- Fresh state as built by PerCpu::new. -/
def PerCpu.new : PerCpu :=
  { svsm_vmsa := none, guest_vmsa := none, caa_addr := none
  , freed := [], mapCalls := [] }

/-- Issue a map_4k call to the page-table collaborator, recording the
attempt in the log; the environment decides success. -/
def map_4k (env : PgEnv) (s : PerCpu) (vaddr paddr : Nat) :
    Except Unit Unit × PerCpu :=
  let s1 := { s with mapCalls := s.mapCalls ++ [(vaddr, paddr)] }
  if env.map4kOk vaddr paddr then (Except.ok (), s1) else (Except.error (), s1)

/-- PerCpu::unmap_guest_vmsa_locked: if the slot is occupied, unmap the
window (propagating failure before any state change), free the physical
page when it is not guest owned, then clear the slot. -/
def unmap_guest_vmsa_locked (env : PgEnv) (s : PerCpu) :
    Except Unit Unit × PerCpu :=
  match s.guest_vmsa with
  | none => (Except.ok (), { s with guest_vmsa := none })
  | some vmsa_info =>
    if env.unmap4kOk vmsa_info.vaddr then
      let s1 :=
        if !vmsa_info.guest_owned then
          { s with freed := s.freed ++ [vmsa_info.paddr] }
        else s
      (Except.ok (), { s1 with guest_vmsa := none })
    else
      (Except.error (), s)

/-- PerCpu::unmap_guest_vmsa: takes the slot lock and delegates. -/
def unmap_guest_vmsa (env : PgEnv) (s : PerCpu) : Except Unit Unit × PerCpu :=
  unmap_guest_vmsa_locked env s

/-- PerCpu::map_guest_vmsa: displace the old entry first, then map the
new physical page at the fixed window and store the new entry. -/
def map_guest_vmsa (env : PgEnv) (paddr : Nat) (guest_owned : Bool)
    (s : PerCpu) : Except Unit Unit × PerCpu :=
  match unmap_guest_vmsa_locked env s with
  | (Except.error e, s1) => (Except.error e, s1)
  | (Except.ok _, s1) =>
    match map_4k env s1 SVSM_PERCPU_VMSA_BASE paddr with
    | (Except.error e, s2) => (Except.error e, s2)
    | (Except.ok _, s2) =>
      (Except.ok (),
        { s2 with guest_vmsa := some (VmsaRef.mk SVSM_PERCPU_VMSA_BASE paddr guest_owned) })

/-- PerCpu::alloc_guest_vmsa: allocate a fresh save-area page, map it as
not guest owned, free the fresh page if the map step failed.  As in the
source, the function returns ok in the failed-map branch as well. -/
def alloc_guest_vmsa (env : PgEnv) (s : PerCpu) : Except Unit Unit × PerCpu :=
  match env.allocVmsa with
  | none => (Except.error (), s)
  | some vmsa =>
    let phys := env.virtToPhys vmsa
    match map_guest_vmsa env phys false s with
    | (Except.error _, s1) => (Except.ok (), { s1 with freed := s1.freed ++ [phys] })
    | (Except.ok _, s1) => (Except.ok (), s1)

/-- PerCpu::alloc_svsm_vmsa: refuse when the self slot is already
occupied, otherwise allocate a VMPL1 save-area and store the handle. -/
def alloc_svsm_vmsa (env : PgEnv) (s : PerCpu) : Except Unit Unit × PerCpu :=
  match s.svsm_vmsa with
  | some _ => (Except.error (), s)
  | none =>
    match env.allocVmsa with
    | none => (Except.error (), s)
    | some vaddr =>
      (Except.ok (), { s with svsm_vmsa := some (VmsaRef.mk vaddr (env.virtToPhys vaddr) false) })

/-- PerCpu::unmap_caa: when the slot is occupied the source clears the
slot to none before issuing the fallible unmap, then propagates an unmap
failure. -/
def unmap_caa (env : PgEnv) (s : PerCpu) : Except Unit Unit × PerCpu :=
  match s.caa_addr with
  | none => (Except.ok (), s)
  | some v =>
    let start := page_align v
    let s1 := { s with caa_addr := none }
    if env.unmap4kOk start then (Except.ok (), s1) else (Except.error (), s1)

/-- PerCpu::map_caa_phys: displace the old entry, map the page-aligned
physical page at the fixed window, and store the window address plus the
sub-page offset. -/
def map_caa_phys (env : PgEnv) (paddr : Nat) (s : PerCpu) :
    Except Unit Unit × PerCpu :=
  match unmap_caa env s with
  | (Except.error e, s1) => (Except.error e, s1)
  | (Except.ok _, s1) =>
    let paddr_aligned := page_align paddr
    match map_4k env s1 SVSM_PERCPU_CAA_BASE paddr_aligned with
    | (Except.error e, s2) => (Except.error e, s2)
    | (Except.ok _, s2) =>
      (Except.ok (), { s2 with caa_addr := some (SVSM_PERCPU_CAA_BASE + page_offset paddr) })

/-- PerCpu::prepare_guest_vmsa: clones the guarded slot and unwraps it.
An empty slot makes the unwrap panic, embedded as none; otherwise the
reset instruction pointer is written into the mapped save-area (an effect
outside the PerCpu fields) and the function returns ok. -/
def prepare_guest_vmsa (s : PerCpu) : Option (Except Unit Unit × PerCpu) :=
  match s.guest_vmsa with
  | none => none
  | some _ => some (Except.ok (), s)

/-! Registry of per-CPU areas (PERCPU_AREAS, PerCpu::alloc, percpu). -/

/-- PerCpu::alloc: obtain a zeroed page (failure propagates), append the
pair of CPU identifier and page address to the registry, and return the
new area address together with the grown registry. -/
def PerCpu.alloc (allocZeroedPage : Option Nat) (areas : List (Nat × Nat))
    (apic_id : Nat) : Except Unit (Nat × List (Nat × Nat)) :=
  match allocZeroedPage with
  | none => Except.error ()
  | some vaddr => Except.ok (vaddr, areas ++ [(apic_id, vaddr)])

/-- percpu lookup: scan the registry in insertion order and return the
address of the first entry whose identifier matches. -/
def percpu (areas : List (Nat × Nat)) (apic_id : Nat) : Option Nat :=
  match areas with
  | [] => none
  | (a, addr) :: rest => if a = apic_id then some addr else percpu rest apic_id

/-! Provisioning sequence (PerCpu::setup and its helper steps). -/

/-- Outcome of one provisioning step or of the whole sequence: an ok or
error result returned to the caller, or a Rust panic raised by expect. -/
inductive Outcome where
  | ok
  | err
  | panic
deriving Repr, DecidableEq

/-- The six provisioning steps of PerCpu::setup in source order. -/
inductive SetupStep where
  | pgtable
  | selfMap
  | ghcb
  | initStack
  | istStacks
  | tssPatch
deriving Repr, DecidableEq

/-- Success or failure of each collaborator call made during setup. -/
structure SetupEnv where
  cloneSharedOk : Bool
  mapSelfOk : Bool
  allocGhcbPageOk : Bool
  ghcbInitOk : Bool
  allocInitStackOk : Bool
  allocIstStackOk : Bool
deriving Repr, DecidableEq

/-- PerCpu::allocate_page_table: clone_shared failure propagates as an
error result. -/
def allocate_page_table (env : SetupEnv) : Outcome :=
  if env.cloneSharedOk then Outcome.ok else Outcome.err

/-- PerCpu::map_self: map_4k failure propagates as an error result. -/
def map_self (env : SetupEnv) : Outcome :=
  if env.mapSelfOk then Outcome.ok else Outcome.err

/-- PerCpu::setup_ghcb: the page allocation failure panics via expect,
while a failing GHCB init is returned as an error result. -/
def setup_ghcb (env : SetupEnv) : Outcome :=
  if env.allocGhcbPageOk then
    (if env.ghcbInitOk then Outcome.ok else Outcome.err)
  else Outcome.panic

/-- PerCpu::allocate_init_stack: allocation failure panics via expect;
when the allocation succeeds the function always returns ok. -/
def allocate_init_stack (env : SetupEnv) : Outcome :=
  if env.allocInitStackOk then Outcome.ok else Outcome.panic

/-- PerCpu::allocate_ist_stacks: allocation failure panics via expect. -/
def allocate_ist_stacks (env : SetupEnv) : Outcome :=
  if env.allocIstStackOk then Outcome.ok else Outcome.panic

/-- PerCpu::setup_tss: infallible field patch. -/
def setup_tss : Outcome := Outcome.ok

/-- Record one executed step and stop the sequence unless it was ok. -/
def runStep (steps : List SetupStep) (st : SetupStep) (o : Outcome) :
    Outcome × List SetupStep :=
  (o, steps ++ [st])

/-- Continue a setup sequence only when the previous step returned ok. -/
def bindStep (r : Outcome × List SetupStep)
    (f : List SetupStep → Outcome × List SetupStep) : Outcome × List SetupStep :=
  match r with
  | (Outcome.ok, steps) => f steps
  | r => r

/-- PerCpu::setup: the six steps in source order, each attempted only
after every earlier one returned ok; the returned list logs the steps
reached. -/
def setup (env : SetupEnv) : Outcome × List SetupStep :=
  bindStep (runStep [] SetupStep.pgtable (allocate_page_table env)) fun s1 =>
  bindStep (runStep s1 SetupStep.selfMap (map_self env)) fun s2 =>
  bindStep (runStep s2 SetupStep.ghcb (setup_ghcb env)) fun s3 =>
  bindStep (runStep s3 SetupStep.initStack (allocate_init_stack env)) fun s4 =>
  bindStep (runStep s4 SetupStep.istStacks (allocate_ist_stacks env)) fun s5 =>
  runStep s5 SetupStep.tssPatch setup_tss

/-! Task identifier allocation (src/task/tasks.rs, TaskIDAllocator). -/

def INITIAL_TASK_ID : Nat := 1

def U32_MOD : Nat := 4294967296

/-- Wrapping 32-bit increment, the effect of fetch_add(1) on the stored
counter. -/
def u32succ (c : Nat) : Nat := (c + 1) % U32_MOD

/-- The skip loop of TaskIDAllocator::next_id: while the fetched id is 0
or the reserved initial id, fetch again.  Consecutive counter values
contain at most two reserved ids in a row, so fuel 3 reproduces the loop
exactly on every 32-bit counter state. -/
def next_id_loop : Nat → Nat → Nat → Nat × Nat
  | 0, id, c => (id, c)
  | fuel + 1, id, c =>
    if id = 0 ∨ id = INITIAL_TASK_ID then next_id_loop fuel c (u32succ c)
    else (id, c)

/-- TaskIDAllocator::next_id on a counter state c: fetch_add, then skip
reserved ids; returns the id and the successor counter state. -/
def next_id (c : Nat) : Nat × Nat :=
  next_id_loop 3 c (u32succ c)

/-- Counter state of the static TASK_ID_ALLOCATOR at boot. -/
def task_id_allocator_new : Nat := INITIAL_TASK_ID + 1

/-! Runtime accounting strategies (src/task/tasks.rs). -/

def U64_MOD : Nat := 18446744073709551616

/-- Wrapping 64-bit addition. -/
def u64add (a b : Nat) : Nat := (a + b) % U64_MOD

/-- Wrapping 64-bit subtraction of b from a, both reduced mod 2 to the
64. -/
def u64sub (a b : Nat) : Nat := (a % U64_MOD + (U64_MOD - b % U64_MOD)) % U64_MOD

/-- Cycle-counter strategy state: the single runtime field. -/
structure TscRuntime where
  runtime : Nat
deriving Repr, DecidableEq

/-- TscRuntime::schedule_in: overwrite the field with the sampled
timestamp; the hardware rdtsc value is passed in as tsc. -/
def TscRuntime.schedule_in (_t : TscRuntime) (tsc : Nat) : TscRuntime :=
  { runtime := tsc % U64_MOD }

/-- TscRuntime::schedule_out: add the wrapping difference between the
sampled timestamp and the field back into the field. -/
def TscRuntime.schedule_out (t : TscRuntime) (tsc : Nat) : TscRuntime :=
  { runtime := u64add t.runtime (u64sub tsc t.runtime) }

/-- TscRuntime::set. -/
def TscRuntime.set (_t : TscRuntime) (v : Nat) : TscRuntime :=
  { runtime := v }

/-- TscRuntime::value. -/
def TscRuntime.value (t : TscRuntime) : Nat := t.runtime

/-- Occurrence-counter strategy state: the single count field. -/
structure CountRuntime where
  count : Nat
deriving Repr, DecidableEq

/-- CountRuntime::default. -/
def CountRuntime.default : CountRuntime := { count := 0 }

/-- CountRuntime::schedule_in: increment the counter. -/
def CountRuntime.schedule_in (t : CountRuntime) : CountRuntime :=
  { count := u64add t.count 1 }

/-- CountRuntime::schedule_out: no effect. -/
def CountRuntime.schedule_out (t : CountRuntime) : CountRuntime := t

/-- CountRuntime::set. -/
def CountRuntime.set (_t : CountRuntime) (v : Nat) : CountRuntime :=
  { count := v }

/-- CountRuntime::value. -/
def CountRuntime.value (t : CountRuntime) : Nat := t.count

/-- A scheduling event seen by a runtime strategy. -/
inductive SchedOp where
  | schedIn
  | schedOut
deriving Repr, DecidableEq

/-- Apply a sequence of scheduling events to an occurrence counter. -/
def runSched (t : CountRuntime) : List SchedOp → CountRuntime
  | [] => t
  | SchedOp.schedIn :: rest => runSched t.schedule_in rest
  | SchedOp.schedOut :: rest => runSched t.schedule_out rest

/-- Number of schedule_in events in a sequence. -/
def countIns : List SchedOp → Nat
  | [] => 0
  | SchedOp.schedIn :: rest => countIns rest + 1
  | SchedOp.schedOut :: rest => countIns rest

/-! Concrete inputs used to instantiate theorems with hypotheses. -/

/-- Environment in which every page-table call succeeds, the save-area
allocator returns page 0x5000, and virt_to_phys is the identity. -/
def envAllOk : PgEnv :=
  { unmap4kOk := fun _ => true, map4kOk := fun _ _ => true
  , allocVmsa := some 0x5000, virtToPhys := fun v => v }

/-- Environment in which every map_4k call fails. -/
def envMapFail : PgEnv :=
  { unmap4kOk := fun _ => true, map4kOk := fun _ _ => false
  , allocVmsa := some 0x5000, virtToPhys := fun v => v }

/-- Environment in which every unmap_4k call fails. -/
def envUnmapFail : PgEnv :=
  { unmap4kOk := fun _ => false, map4kOk := fun _ _ => true
  , allocVmsa := some 0x5000, virtToPhys := fun v => v }

/-- State whose calling-area slot holds the window address plus offset 5. -/
def sCaa : PerCpu := { PerCpu.new with caa_addr := some (SVSM_PERCPU_CAA_BASE + 5) }

/-- State whose guest save-area slot holds a guest-owned page. -/
def sGuest : PerCpu :=
  { PerCpu.new with guest_vmsa := some (VmsaRef.mk SVSM_PERCPU_VMSA_BASE 0x7000 true) }

/-- State holding the self save-area produced by a successful
alloc_svsm_vmsa in envAllOk. -/
def sSelf : PerCpu :=
  { PerCpu.new with svsm_vmsa := some (VmsaRef.mk 0x5000 0x5000 false) }

/-- Setup environment whose only failing collaborator call is the
allocation of the init stack. -/
def envInitStackFail : SetupEnv :=
  { cloneSharedOk := true, mapSelfOk := true, allocGhcbPageOk := true
  , ghcbInitOk := true, allocInitStackOk := false, allocIstStackOk := true }

/-! Theorems. -/

/-- C3: when the mapping step inside alloc_guest_vmsa fails (fourth
conjunct), the freshly allocated page 0x5000 is freed and no partial
entry is left in the guest slot; however the call reports ok to the
caller, exhibiting the divergence from the claim. -/
theorem alloc_guest_vmsa_swallows_map_failure :
    (map_guest_vmsa envMapFail 0x5000 false PerCpu.new).1 = Except.error () ∧
    (alloc_guest_vmsa envMapFail PerCpu.new).2.freed = [0x5000] ∧
    (alloc_guest_vmsa envMapFail PerCpu.new).2.guest_vmsa = none ∧
    (alloc_guest_vmsa envMapFail PerCpu.new).1 = Except.ok () :=
  ⟨rfl, rfl, rfl, rfl⟩

/-- C4: the cycle-counter strategy does not add the quantum delta to the
accumulated value.  Starting from accumulated runtime 100, a quantum
sampled at timestamps 1000 and 1010 leaves the value 1010, the raw end
timestamp, not 100 plus the delta 10. -/
theorem tsc_runtime_pair_loses_accumulation :
    ((TscRuntime.mk 100).schedule_in 1000).schedule_out 1010 = TscRuntime.mk 1010 ∧
    (TscRuntime.mk 1010).value ≠ (TscRuntime.mk 100).value + (1010 - 1000) := by
  constructor
  · rfl
  · intro h
    simp [TscRuntime.value] at h

/-- C5 counterexample: with every collaborator call succeeding except
the init-stack allocation, setup reaches the fourth step and aborts by
panic, not by an error result as the claim states. -/
theorem setup_panics_on_init_stack_failure :
    setup envInitStackFail =
      (Outcome.panic,
        [SetupStep.pgtable, SetupStep.selfMap, SetupStep.ghcb, SetupStep.initStack]) ∧
    Outcome.panic ≠ Outcome.err := by
  exact ⟨rfl, by intro h; cases h⟩

/-- C5 amended: setup runs its six steps in source order, attempting each
only after all earlier ones returned ok, and any failure aborts the
sequence; failures of the page-table clone, the self-mapping and the
signaling-page init propagate as error results, while allocation
failures in the signaling-page, init-stack and fault-stack steps abort
by panic. -/
theorem setup_step_order_and_failure_modes (env : SetupEnv) :
    setup env =
      if env.cloneSharedOk = false then
        (Outcome.err, [SetupStep.pgtable])
      else if env.mapSelfOk = false then
        (Outcome.err, [SetupStep.pgtable, SetupStep.selfMap])
      else if env.allocGhcbPageOk = false then
        (Outcome.panic, [SetupStep.pgtable, SetupStep.selfMap, SetupStep.ghcb])
      else if env.ghcbInitOk = false then
        (Outcome.err, [SetupStep.pgtable, SetupStep.selfMap, SetupStep.ghcb])
      else if env.allocInitStackOk = false then
        (Outcome.panic,
          [SetupStep.pgtable, SetupStep.selfMap, SetupStep.ghcb, SetupStep.initStack])
      else if env.allocIstStackOk = false then
        (Outcome.panic,
          [SetupStep.pgtable, SetupStep.selfMap, SetupStep.ghcb,
            SetupStep.initStack, SetupStep.istStacks])
      else
        (Outcome.ok,
          [SetupStep.pgtable, SetupStep.selfMap, SetupStep.ghcb,
            SetupStep.initStack, SetupStep.istStacks, SetupStep.tssPatch]) := by
  rcases env with ⟨a, b, c, d, e, f⟩
  cases a <;> cases b <;> cases c <;> cases d <;> cases e <;> cases f <;> rfl

/-- C7: once alloc_svsm_vmsa has succeeded, a second call fails with an
error and returns the state unchanged, so the stored self save-area
reference is undisturbed. -/
theorem alloc_svsm_vmsa_second_call_fails
    (env1 env2 : PgEnv) (s0 s1 : PerCpu)
    (hfirst : alloc_svsm_vmsa env1 s0 = (Except.ok (), s1)) :
    alloc_svsm_vmsa env2 s1 = (Except.error (), s1) := by
  unfold alloc_svsm_vmsa at hfirst ⊢
  cases hs : s0.svsm_vmsa with
  | some r => rw [hs] at hfirst; simp at hfirst
  | none =>
    rw [hs] at hfirst
    cases ha : env1.allocVmsa with
    | none => rw [ha] at hfirst; simp at hfirst
    | some vaddr =>
      rw [ha] at hfirst
      simp only [Prod.mk.injEq] at hfirst
      rw [← hfirst.2]

/-- C7 witness at the concrete all-ok environment. -/
theorem alloc_svsm_vmsa_second_call_fails_witness :
    alloc_svsm_vmsa envAllOk sSelf = (Except.error (), sSelf) :=
  alloc_svsm_vmsa_second_call_fails envAllOk envAllOk PerCpu.new sSelf rfl

/-- Helper: occurrence-counter accounting accumulated from any starting
count, as long as no 64-bit wrap occurs. -/
theorem runSched_value_eq (ops : List SchedOp) (t : CountRuntime)
    (h : t.count + countIns ops < U64_MOD) :
    (runSched t ops).value = t.count + countIns ops := by
  induction ops generalizing t with
  | nil => simp [runSched, CountRuntime.value, countIns]
  | cons op rest ih =>
    cases op with
    | schedIn =>
      have hstep : (t.schedule_in).count = t.count + 1 := by
        simp only [CountRuntime.schedule_in, u64add]
        exact Nat.mod_eq_of_lt (by simp [countIns] at h; omega)
      have hrec := ih t.schedule_in (by simp [countIns] at h; omega)
      simp only [runSched, countIns] at *
      omega
    | schedOut =>
      have hrec := ih t (by simp [countIns] at h; omega)
      simp only [runSched, CountRuntime.schedule_out, countIns] at *
      omega

/-- C9: from the default occurrence counter, the value after a sequence
of scheduling events equals the number of schedule_in events in it, for
any interleaving of schedule_out events (given no 64-bit wrap); and set
followed by value returns the set value. -/
theorem count_runtime_accounting (ops : List SchedOp)
    (h : countIns ops < U64_MOD) (t : CountRuntime) (v : Nat) :
    (runSched CountRuntime.default ops).value = countIns ops ∧
    (t.set v).value = v := by
  constructor
  · have := runSched_value_eq ops CountRuntime.default
      (by simpa [CountRuntime.default] using h)
    simpa [CountRuntime.default] using this
  · rfl

/-- C9 witness at a concrete event sequence with an interleaved
schedule_out. -/
theorem count_runtime_accounting_witness :
    (runSched CountRuntime.default
      [SchedOp.schedIn, SchedOp.schedOut, SchedOp.schedIn]).value = 2 ∧
    ((CountRuntime.mk 5).set 7).value = 7 := by
  have h := count_runtime_accounting
    [SchedOp.schedIn, SchedOp.schedOut, SchedOp.schedIn]
    (by norm_num [countIns, U64_MOD]) (CountRuntime.mk 5) 7
  exact ⟨by simpa [countIns] using h.1, h.2⟩

/-- C10: prepare_guest_vmsa on an empty guest slot panics on the unwrap,
embedded as the none outcome, and whenever it does return, the returned
result is ok. -/
theorem prepare_guest_vmsa_empty_slot_panics (s : PerCpu) :
    (s.guest_vmsa = none → prepare_guest_vmsa s = none) ∧
    (∀ r, prepare_guest_vmsa s = some r → r.1 = Except.ok ()) := by
  constructor
  · intro h
    simp [prepare_guest_vmsa, h]
  · intro r h
    cases hg : s.guest_vmsa with
    | none => simp [prepare_guest_vmsa, hg] at h
    | some v =>
      simp [prepare_guest_vmsa, hg] at h
      rw [← h]

/-- C1: on a state with an empty guest slot and empty free log, mapping
p1 as not owned by this layer (guest_owned true) and then p2 as owned by
this layer (guest_owned false) succeeds, leaves the slot holding exactly
p2 with spec ownership true, never frees p1, and a following unmap frees
exactly p2 and empties the slot. -/
theorem guest_vmsa_replace_then_unmap
    (env : PgEnv) (p1 p2 : Nat) (s0 : PerCpu)
    (hne : p1 ≠ p2)
    (hslot : s0.guest_vmsa = none) (hfreed : s0.freed = [])
    (hunmap : env.unmap4kOk SVSM_PERCPU_VMSA_BASE = true)
    (hmap1 : env.map4kOk SVSM_PERCPU_VMSA_BASE p1 = true)
    (hmap2 : env.map4kOk SVSM_PERCPU_VMSA_BASE p2 = true) :
    (map_guest_vmsa env p1 true s0).1 = Except.ok () ∧
    (map_guest_vmsa env p2 false (map_guest_vmsa env p1 true s0).2).1 = Except.ok () ∧
    (map_guest_vmsa env p2 false (map_guest_vmsa env p1 true s0).2).2.guest_vmsa =
      some (VmsaRef.mk SVSM_PERCPU_VMSA_BASE p2 false) ∧
    Option.map VmsaRef.owned
      (map_guest_vmsa env p2 false (map_guest_vmsa env p1 true s0).2).2.guest_vmsa =
      some true ∧
    p1 ∉ (map_guest_vmsa env p2 false (map_guest_vmsa env p1 true s0).2).2.freed ∧
    (unmap_guest_vmsa env
      (map_guest_vmsa env p2 false (map_guest_vmsa env p1 true s0).2).2).1 =
      Except.ok () ∧
    (unmap_guest_vmsa env
      (map_guest_vmsa env p2 false (map_guest_vmsa env p1 true s0).2).2).2.guest_vmsa =
      none ∧
    p1 ∉ (unmap_guest_vmsa env
      (map_guest_vmsa env p2 false (map_guest_vmsa env p1 true s0).2).2).2.freed ∧
    p2 ∈ (unmap_guest_vmsa env
      (map_guest_vmsa env p2 false (map_guest_vmsa env p1 true s0).2).2).2.freed := by
  have h1 : map_guest_vmsa env p1 true s0 =
      (Except.ok (),
        { s0 with
            guest_vmsa := some (VmsaRef.mk SVSM_PERCPU_VMSA_BASE p1 true),
            mapCalls := s0.mapCalls ++ [(SVSM_PERCPU_VMSA_BASE, p1)] }) := by
    simp [map_guest_vmsa, unmap_guest_vmsa_locked, map_4k, hslot, hmap1]
  rw [h1]
  have h2 : map_guest_vmsa env p2 false
      ({ s0 with
           guest_vmsa := some (VmsaRef.mk SVSM_PERCPU_VMSA_BASE p1 true),
           mapCalls := s0.mapCalls ++ [(SVSM_PERCPU_VMSA_BASE, p1)] } : PerCpu) =
      (Except.ok (),
        { s0 with
            guest_vmsa := some (VmsaRef.mk SVSM_PERCPU_VMSA_BASE p2 false),
            mapCalls := (s0.mapCalls ++ [(SVSM_PERCPU_VMSA_BASE, p1)]) ++
              [(SVSM_PERCPU_VMSA_BASE, p2)] }) := by
    simp [map_guest_vmsa, unmap_guest_vmsa_locked, map_4k, hunmap, hmap2]
  rw [h2]
  have h3 : unmap_guest_vmsa env
      ({ s0 with
           guest_vmsa := some (VmsaRef.mk SVSM_PERCPU_VMSA_BASE p2 false),
           mapCalls := (s0.mapCalls ++ [(SVSM_PERCPU_VMSA_BASE, p1)]) ++
             [(SVSM_PERCPU_VMSA_BASE, p2)] } : PerCpu) =
      (Except.ok (),
        { s0 with
            guest_vmsa := none,
            freed := s0.freed ++ [p2],
            mapCalls := (s0.mapCalls ++ [(SVSM_PERCPU_VMSA_BASE, p1)]) ++
              [(SVSM_PERCPU_VMSA_BASE, p2)] }) := by
    simp [unmap_guest_vmsa, unmap_guest_vmsa_locked, hunmap]
  rw [h3]
  simp [VmsaRef.owned, hfreed, hne]

/-- C1 witness at the all-ok environment with pages 0x1000 and 0x2000. -/
theorem guest_vmsa_replace_then_unmap_witness :
    0x1000 ∉ (unmap_guest_vmsa envAllOk
      (map_guest_vmsa envAllOk 0x2000 false
        (map_guest_vmsa envAllOk 0x1000 true PerCpu.new).2).2).2.freed ∧
    0x2000 ∈ (unmap_guest_vmsa envAllOk
      (map_guest_vmsa envAllOk 0x2000 false
        (map_guest_vmsa envAllOk 0x1000 true PerCpu.new).2).2).2.freed := by
  have h := guest_vmsa_replace_then_unmap envAllOk 0x1000 0x2000 PerCpu.new
    (by norm_num) rfl rfl rfl rfl rfl
  exact ⟨h.2.2.2.2.2.2.2.1, h.2.2.2.2.2.2.2.2⟩

/-- C2 counterexample: with the calling-area slot holding its window
address plus offset 5 and the displacing unmap failing, map_calling_area
leaves the slot empty rather than holding its prior entry. -/
theorem map_caa_displacement_failure_clears_slot :
    sCaa.caa_addr = some (SVSM_PERCPU_CAA_BASE + 5) ∧
    (map_caa_phys envUnmapFail 0x9005 sCaa).1 = Except.error () ∧
    (map_caa_phys envUnmapFail 0x9005 sCaa).2.caa_addr = none :=
  ⟨rfl, rfl, rfl⟩

/-- C2 amended: when displacing the occupied slot fails, the new mapping
is never attempted (the whole call returns the error before any map_4k
call is issued).  For the guest save-area the state is returned
untouched, so the slot still holds its prior entry; for the calling-area
the slot has already been cleared to the empty state, which is valid but
no longer the prior entry. -/
theorem displacement_failure_leaves_slot_valid
    (env : PgEnv) (s : PerCpu) (p : Nat) :
    (∀ r, s.guest_vmsa = some r → env.unmap4kOk r.vaddr = false →
      ∀ g, map_guest_vmsa env p g s = (Except.error (), s)) ∧
    (∀ v, s.caa_addr = some v → env.unmap4kOk (page_align v) = false →
      map_caa_phys env p s = (Except.error (), { s with caa_addr := none })) := by
  constructor
  · intro r hr hfail g
    simp [map_guest_vmsa, unmap_guest_vmsa_locked, hr, hfail]
  · intro v hv hfail
    simp [map_caa_phys, unmap_caa, hv, hfail]

/-- C2 witness: concrete occupied states under the failing-unmap
environment. -/
theorem displacement_failure_leaves_slot_valid_witness :
    map_guest_vmsa envUnmapFail 0x9000 true sGuest = (Except.error (), sGuest) ∧
    map_caa_phys envUnmapFail 0x9005 sCaa =
      (Except.error (), { sCaa with caa_addr := none }) :=
  ⟨(displacement_failure_leaves_slot_valid envUnmapFail sGuest 0x9000).1
      (VmsaRef.mk SVSM_PERCPU_VMSA_BASE 0x7000 true) rfl rfl true,
   (displacement_failure_leaves_slot_valid envUnmapFail sCaa 0x9005).2
      (SVSM_PERCPU_CAA_BASE + 5) rfl rfl⟩

/-- Helper: looking an identifier up in a registry extended with a fresh
entry for it finds exactly that entry. -/
theorem percpu_append_fresh (areas : List (Nat × Nat)) (apic_id vaddr : Nat)
    (hfresh : ∀ e ∈ areas, e.1 ≠ apic_id) :
    percpu (areas ++ [(apic_id, vaddr)]) apic_id = some vaddr := by
  induction areas with
  | nil => simp [percpu]
  | cons hd tl ih =>
    obtain ⟨a, addr⟩ := hd
    have hne : a ≠ apic_id := hfresh (a, addr) (by simp)
    simp only [List.cons_append, percpu, if_neg hne]
    exact ih fun e he => hfresh e (by simp [he])

/-- C6: when alloc registers an identifier in a registry holding no
entry for it, a later lookup of that identifier returns exactly the area
address alloc produced. -/
theorem percpu_lookup_after_alloc
    (page : Nat) (areas : List (Nat × Nat)) (apic_id vaddr : Nat)
    (new_areas : List (Nat × Nat))
    (halloc : PerCpu.alloc (some page) areas apic_id = Except.ok (vaddr, new_areas))
    (hfresh : ∀ e ∈ areas, e.1 ≠ apic_id) :
    percpu new_areas apic_id = some vaddr := by
  simp only [PerCpu.alloc, Except.ok.injEq, Prod.mk.injEq] at halloc
  rw [← halloc.2, ← halloc.1]
  exact percpu_append_fresh areas apic_id page hfresh

/-- C6 witness: registry with one other CPU, identifier 7 freshly
registered at address 200. -/
theorem percpu_lookup_after_alloc_witness :
    percpu [(3, 100), (7, 200)] 7 = some 200 :=
  percpu_lookup_after_alloc 200 [(3, 100)] 7 200 [(3, 100), (7, 200)] rfl
    (by norm_num)

/-- Helper: one unrolling of the reserved-id skip loop. -/
theorem next_id_loop_succ (fuel id c : Nat) :
    next_id_loop (fuel + 1) id c =
      if id = 0 ∨ id = INITIAL_TASK_ID then next_id_loop fuel c (u32succ c)
      else (id, c) := rfl

/-- Helper: closed form of next_id on any counter state. -/
theorem next_id_eq (c : Nat) :
    next_id c = if c = 0 ∨ c = 1 then (2, 3) else (c, u32succ c) := by
  by_cases h : c = 0 ∨ c = 1
  · rcases h with h | h <;> subst h <;> rfl
  · have hres : ¬(c = 0 ∨ c = INITIAL_TASK_ID) := by simpa [INITIAL_TASK_ID] using h
    rw [if_neg h]
    have hdef : next_id c = next_id_loop (2 + 1) c (u32succ c) := rfl
    rw [hdef, next_id_loop_succ, if_neg hres]

/-- C8: from any 32-bit counter state, two consecutive next_id calls
return distinct ids, both nonzero and both different from the reserved
initial-task id. -/
theorem task_ids_distinct_and_reserved_free (c : Nat) (hc : c < U32_MOD) :
    (next_id c).1 ≠ 0 ∧ (next_id c).1 ≠ INITIAL_TASK_ID ∧
    (next_id (next_id c).2).1 ≠ 0 ∧
    (next_id (next_id c).2).1 ≠ INITIAL_TASK_ID ∧
    (next_id c).1 ≠ (next_id (next_id c).2).1 := by
  by_cases h : c = 0 ∨ c = 1
  · have h1 : next_id c = (2, 3) := by rw [next_id_eq, if_pos h]
    have h2 : next_id 3 = (3, 4) := by
      rw [next_id_eq]
      norm_num [u32succ, U32_MOD]
    rw [h1]
    norm_num [h2, INITIAL_TASK_ID]
  · push_neg at h
    have h1 : next_id c = (c, u32succ c) := by
      rw [next_id_eq, if_neg (by omega)]
    by_cases htop : c = U32_MOD - 1
    · subst htop
      norm_num [U32_MOD]
      decide
    · have hlt : c + 1 < U32_MOD := by
        have : U32_MOD = 4294967296 := rfl
        omega
      have hsucc : u32succ c = c + 1 := by
        rw [u32succ]
        exact Nat.mod_eq_of_lt hlt
      have h2 : next_id (c + 1) = (c + 1, u32succ (c + 1)) := by
        rw [next_id_eq, if_neg (by omega)]
      rw [h1]
      norm_num [hsucc, h2, INITIAL_TASK_ID]
      omega

/-- C8 witness at the boot counter state of the static allocator. -/
theorem task_ids_distinct_and_reserved_free_witness :
    (next_id task_id_allocator_new).1 ≠ 0 ∧
    (next_id task_id_allocator_new).1 ≠ INITIAL_TASK_ID ∧
    (next_id (next_id task_id_allocator_new).2).1 ≠ 0 ∧
    (next_id (next_id task_id_allocator_new).2).1 ≠ INITIAL_TASK_ID ∧
    (next_id task_id_allocator_new).1 ≠
      (next_id (next_id task_id_allocator_new).2).1 :=
  task_ids_distinct_and_reserved_free task_id_allocator_new
    (by norm_num [task_id_allocator_new, INITIAL_TASK_ID, U32_MOD])

/-- C10 witness: the fresh state panics, and a state with an occupied
slot returns ok. -/
theorem prepare_guest_vmsa_empty_slot_panics_witness :
    prepare_guest_vmsa PerCpu.new = none ∧
    ((Except.ok () : Except Unit Unit), sGuest).1 = Except.ok () :=
  ⟨(prepare_guest_vmsa_empty_slot_panics PerCpu.new).1 rfl,
   (prepare_guest_vmsa_empty_slot_panics sGuest).2 ((Except.ok () : Except Unit Unit), sGuest) rfl⟩

end Svsm
